import Mathlib

/-!
Verification development for the `simple-wifi-radius-authenticator` repository.

The development shallowly embeds the access-decision engine of the program:

* `utils.go` — `normalizeMACAddress`, `isValidMACFormat`, `prettyPrintMACAddress`;
* `radius.go` — `radiusHandler` (the per-request decision procedure) and the
  SQLite-backed `macdatabase.GetMACRecord` read path.

Strings are modelled through their character lists; Go's byte-oriented
operations only ever touch ASCII data on the paths modelled here.  Go's
`strings.ToLower` is modelled per rune by `goToLowerChar`: the ASCII fast
path of `unicode.ToLower`, then the Unicode simple lowercase mapping as an
explicit table.  The SQLite store is modelled relationally: one list per
table, and `GetMACRecord`'s three prepared queries are embedded as list
filters faithful to the SQL.  Storage faults and row ordering are the only
external nondeterminism; the handler is therefore parameterised by its lookup
function, and `GetMACRecord db` instantiates it with a fault-free store.
-/

namespace SWRA

/-! ## Identity normalizer (`utils.go`) -/

set_option maxHeartbeats 4000000 in
/-- The Unicode simple lowercase mapping used by Go's `unicode.ToLower` for
non-ASCII runes, as an explicit table: every code point at or above `0x80`
whose simple lowercase differs from itself, paired with that lowercase
(extensionally equal to Go's binary search over `unicode.CaseRanges`).
Generated from Unicode 14.0.0 data, the era of current Go toolchains; the
one code point whose full lowercase differs from the simple one (`U+0130`)
carries its simple mapping `U+0069`, as Go does. -/
def goCaseTable : List (Nat × Nat) := [
  (192, 224), (193, 225), (194, 226), (195, 227), (196, 228), (197, 229), (198, 230), (199, 231),
  (200, 232), (201, 233), (202, 234), (203, 235), (204, 236), (205, 237), (206, 238), (207, 239),
  (208, 240), (209, 241), (210, 242), (211, 243), (212, 244), (213, 245), (214, 246), (216, 248),
  (217, 249), (218, 250), (219, 251), (220, 252), (221, 253), (222, 254), (256, 257), (258, 259),
  (260, 261), (262, 263), (264, 265), (266, 267), (268, 269), (270, 271), (272, 273), (274, 275),
  (276, 277), (278, 279), (280, 281), (282, 283), (284, 285), (286, 287), (288, 289), (290, 291),
  (292, 293), (294, 295), (296, 297), (298, 299), (300, 301), (302, 303), (304, 105), (306, 307),
  (308, 309), (310, 311), (313, 314), (315, 316), (317, 318), (319, 320), (321, 322), (323, 324),
  (325, 326), (327, 328), (330, 331), (332, 333), (334, 335), (336, 337), (338, 339), (340, 341),
  (342, 343), (344, 345), (346, 347), (348, 349), (350, 351), (352, 353), (354, 355), (356, 357),
  (358, 359), (360, 361), (362, 363), (364, 365), (366, 367), (368, 369), (370, 371), (372, 373),
  (374, 375), (376, 255), (377, 378), (379, 380), (381, 382), (385, 595), (386, 387), (388, 389),
  (390, 596), (391, 392), (393, 598), (394, 599), (395, 396), (398, 477), (399, 601), (400, 603),
  (401, 402), (403, 608), (404, 611), (406, 617), (407, 616), (408, 409), (412, 623), (413, 626),
  (415, 629), (416, 417), (418, 419), (420, 421), (422, 640), (423, 424), (425, 643), (428, 429),
  (430, 648), (431, 432), (433, 650), (434, 651), (435, 436), (437, 438), (439, 658), (440, 441),
  (444, 445), (452, 454), (453, 454), (455, 457), (456, 457), (458, 460), (459, 460), (461, 462),
  (463, 464), (465, 466), (467, 468), (469, 470), (471, 472), (473, 474), (475, 476), (478, 479),
  (480, 481), (482, 483), (484, 485), (486, 487), (488, 489), (490, 491), (492, 493), (494, 495),
  (497, 499), (498, 499), (500, 501), (502, 405), (503, 447), (504, 505), (506, 507), (508, 509),
  (510, 511), (512, 513), (514, 515), (516, 517), (518, 519), (520, 521), (522, 523), (524, 525),
  (526, 527), (528, 529), (530, 531), (532, 533), (534, 535), (536, 537), (538, 539), (540, 541),
  (542, 543), (544, 414), (546, 547), (548, 549), (550, 551), (552, 553), (554, 555), (556, 557),
  (558, 559), (560, 561), (562, 563), (570, 11365), (571, 572), (573, 410), (574, 11366), (577, 578),
  (579, 384), (580, 649), (581, 652), (582, 583), (584, 585), (586, 587), (588, 589), (590, 591),
  (880, 881), (882, 883), (886, 887), (895, 1011), (902, 940), (904, 941), (905, 942), (906, 943),
  (908, 972), (910, 973), (911, 974), (913, 945), (914, 946), (915, 947), (916, 948), (917, 949),
  (918, 950), (919, 951), (920, 952), (921, 953), (922, 954), (923, 955), (924, 956), (925, 957),
  (926, 958), (927, 959), (928, 960), (929, 961), (931, 963), (932, 964), (933, 965), (934, 966),
  (935, 967), (936, 968), (937, 969), (938, 970), (939, 971), (975, 983), (984, 985), (986, 987),
  (988, 989), (990, 991), (992, 993), (994, 995), (996, 997), (998, 999), (1000, 1001), (1002, 1003),
  (1004, 1005), (1006, 1007), (1012, 952), (1015, 1016), (1017, 1010), (1018, 1019), (1021, 891), (1022, 892),
  (1023, 893), (1024, 1104), (1025, 1105), (1026, 1106), (1027, 1107), (1028, 1108), (1029, 1109), (1030, 1110),
  (1031, 1111), (1032, 1112), (1033, 1113), (1034, 1114), (1035, 1115), (1036, 1116), (1037, 1117), (1038, 1118),
  (1039, 1119), (1040, 1072), (1041, 1073), (1042, 1074), (1043, 1075), (1044, 1076), (1045, 1077), (1046, 1078),
  (1047, 1079), (1048, 1080), (1049, 1081), (1050, 1082), (1051, 1083), (1052, 1084), (1053, 1085), (1054, 1086),
  (1055, 1087), (1056, 1088), (1057, 1089), (1058, 1090), (1059, 1091), (1060, 1092), (1061, 1093), (1062, 1094),
  (1063, 1095), (1064, 1096), (1065, 1097), (1066, 1098), (1067, 1099), (1068, 1100), (1069, 1101), (1070, 1102),
  (1071, 1103), (1120, 1121), (1122, 1123), (1124, 1125), (1126, 1127), (1128, 1129), (1130, 1131), (1132, 1133),
  (1134, 1135), (1136, 1137), (1138, 1139), (1140, 1141), (1142, 1143), (1144, 1145), (1146, 1147), (1148, 1149),
  (1150, 1151), (1152, 1153), (1162, 1163), (1164, 1165), (1166, 1167), (1168, 1169), (1170, 1171), (1172, 1173),
  (1174, 1175), (1176, 1177), (1178, 1179), (1180, 1181), (1182, 1183), (1184, 1185), (1186, 1187), (1188, 1189),
  (1190, 1191), (1192, 1193), (1194, 1195), (1196, 1197), (1198, 1199), (1200, 1201), (1202, 1203), (1204, 1205),
  (1206, 1207), (1208, 1209), (1210, 1211), (1212, 1213), (1214, 1215), (1216, 1231), (1217, 1218), (1219, 1220),
  (1221, 1222), (1223, 1224), (1225, 1226), (1227, 1228), (1229, 1230), (1232, 1233), (1234, 1235), (1236, 1237),
  (1238, 1239), (1240, 1241), (1242, 1243), (1244, 1245), (1246, 1247), (1248, 1249), (1250, 1251), (1252, 1253),
  (1254, 1255), (1256, 1257), (1258, 1259), (1260, 1261), (1262, 1263), (1264, 1265), (1266, 1267), (1268, 1269),
  (1270, 1271), (1272, 1273), (1274, 1275), (1276, 1277), (1278, 1279), (1280, 1281), (1282, 1283), (1284, 1285),
  (1286, 1287), (1288, 1289), (1290, 1291), (1292, 1293), (1294, 1295), (1296, 1297), (1298, 1299), (1300, 1301),
  (1302, 1303), (1304, 1305), (1306, 1307), (1308, 1309), (1310, 1311), (1312, 1313), (1314, 1315), (1316, 1317),
  (1318, 1319), (1320, 1321), (1322, 1323), (1324, 1325), (1326, 1327), (1329, 1377), (1330, 1378), (1331, 1379),
  (1332, 1380), (1333, 1381), (1334, 1382), (1335, 1383), (1336, 1384), (1337, 1385), (1338, 1386), (1339, 1387),
  (1340, 1388), (1341, 1389), (1342, 1390), (1343, 1391), (1344, 1392), (1345, 1393), (1346, 1394), (1347, 1395),
  (1348, 1396), (1349, 1397), (1350, 1398), (1351, 1399), (1352, 1400), (1353, 1401), (1354, 1402), (1355, 1403),
  (1356, 1404), (1357, 1405), (1358, 1406), (1359, 1407), (1360, 1408), (1361, 1409), (1362, 1410), (1363, 1411),
  (1364, 1412), (1365, 1413), (1366, 1414), (4256, 11520), (4257, 11521), (4258, 11522), (4259, 11523), (4260, 11524),
  (4261, 11525), (4262, 11526), (4263, 11527), (4264, 11528), (4265, 11529), (4266, 11530), (4267, 11531), (4268, 11532),
  (4269, 11533), (4270, 11534), (4271, 11535), (4272, 11536), (4273, 11537), (4274, 11538), (4275, 11539), (4276, 11540),
  (4277, 11541), (4278, 11542), (4279, 11543), (4280, 11544), (4281, 11545), (4282, 11546), (4283, 11547), (4284, 11548),
  (4285, 11549), (4286, 11550), (4287, 11551), (4288, 11552), (4289, 11553), (4290, 11554), (4291, 11555), (4292, 11556),
  (4293, 11557), (4295, 11559), (4301, 11565), (5024, 43888), (5025, 43889), (5026, 43890), (5027, 43891), (5028, 43892),
  (5029, 43893), (5030, 43894), (5031, 43895), (5032, 43896), (5033, 43897), (5034, 43898), (5035, 43899), (5036, 43900),
  (5037, 43901), (5038, 43902), (5039, 43903), (5040, 43904), (5041, 43905), (5042, 43906), (5043, 43907), (5044, 43908),
  (5045, 43909), (5046, 43910), (5047, 43911), (5048, 43912), (5049, 43913), (5050, 43914), (5051, 43915), (5052, 43916),
  (5053, 43917), (5054, 43918), (5055, 43919), (5056, 43920), (5057, 43921), (5058, 43922), (5059, 43923), (5060, 43924),
  (5061, 43925), (5062, 43926), (5063, 43927), (5064, 43928), (5065, 43929), (5066, 43930), (5067, 43931), (5068, 43932),
  (5069, 43933), (5070, 43934), (5071, 43935), (5072, 43936), (5073, 43937), (5074, 43938), (5075, 43939), (5076, 43940),
  (5077, 43941), (5078, 43942), (5079, 43943), (5080, 43944), (5081, 43945), (5082, 43946), (5083, 43947), (5084, 43948),
  (5085, 43949), (5086, 43950), (5087, 43951), (5088, 43952), (5089, 43953), (5090, 43954), (5091, 43955), (5092, 43956),
  (5093, 43957), (5094, 43958), (5095, 43959), (5096, 43960), (5097, 43961), (5098, 43962), (5099, 43963), (5100, 43964),
  (5101, 43965), (5102, 43966), (5103, 43967), (5104, 5112), (5105, 5113), (5106, 5114), (5107, 5115), (5108, 5116),
  (5109, 5117), (7312, 4304), (7313, 4305), (7314, 4306), (7315, 4307), (7316, 4308), (7317, 4309), (7318, 4310),
  (7319, 4311), (7320, 4312), (7321, 4313), (7322, 4314), (7323, 4315), (7324, 4316), (7325, 4317), (7326, 4318),
  (7327, 4319), (7328, 4320), (7329, 4321), (7330, 4322), (7331, 4323), (7332, 4324), (7333, 4325), (7334, 4326),
  (7335, 4327), (7336, 4328), (7337, 4329), (7338, 4330), (7339, 4331), (7340, 4332), (7341, 4333), (7342, 4334),
  (7343, 4335), (7344, 4336), (7345, 4337), (7346, 4338), (7347, 4339), (7348, 4340), (7349, 4341), (7350, 4342),
  (7351, 4343), (7352, 4344), (7353, 4345), (7354, 4346), (7357, 4349), (7358, 4350), (7359, 4351), (7680, 7681),
  (7682, 7683), (7684, 7685), (7686, 7687), (7688, 7689), (7690, 7691), (7692, 7693), (7694, 7695), (7696, 7697),
  (7698, 7699), (7700, 7701), (7702, 7703), (7704, 7705), (7706, 7707), (7708, 7709), (7710, 7711), (7712, 7713),
  (7714, 7715), (7716, 7717), (7718, 7719), (7720, 7721), (7722, 7723), (7724, 7725), (7726, 7727), (7728, 7729),
  (7730, 7731), (7732, 7733), (7734, 7735), (7736, 7737), (7738, 7739), (7740, 7741), (7742, 7743), (7744, 7745),
  (7746, 7747), (7748, 7749), (7750, 7751), (7752, 7753), (7754, 7755), (7756, 7757), (7758, 7759), (7760, 7761),
  (7762, 7763), (7764, 7765), (7766, 7767), (7768, 7769), (7770, 7771), (7772, 7773), (7774, 7775), (7776, 7777),
  (7778, 7779), (7780, 7781), (7782, 7783), (7784, 7785), (7786, 7787), (7788, 7789), (7790, 7791), (7792, 7793),
  (7794, 7795), (7796, 7797), (7798, 7799), (7800, 7801), (7802, 7803), (7804, 7805), (7806, 7807), (7808, 7809),
  (7810, 7811), (7812, 7813), (7814, 7815), (7816, 7817), (7818, 7819), (7820, 7821), (7822, 7823), (7824, 7825),
  (7826, 7827), (7828, 7829), (7838, 223), (7840, 7841), (7842, 7843), (7844, 7845), (7846, 7847), (7848, 7849),
  (7850, 7851), (7852, 7853), (7854, 7855), (7856, 7857), (7858, 7859), (7860, 7861), (7862, 7863), (7864, 7865),
  (7866, 7867), (7868, 7869), (7870, 7871), (7872, 7873), (7874, 7875), (7876, 7877), (7878, 7879), (7880, 7881),
  (7882, 7883), (7884, 7885), (7886, 7887), (7888, 7889), (7890, 7891), (7892, 7893), (7894, 7895), (7896, 7897),
  (7898, 7899), (7900, 7901), (7902, 7903), (7904, 7905), (7906, 7907), (7908, 7909), (7910, 7911), (7912, 7913),
  (7914, 7915), (7916, 7917), (7918, 7919), (7920, 7921), (7922, 7923), (7924, 7925), (7926, 7927), (7928, 7929),
  (7930, 7931), (7932, 7933), (7934, 7935), (7944, 7936), (7945, 7937), (7946, 7938), (7947, 7939), (7948, 7940),
  (7949, 7941), (7950, 7942), (7951, 7943), (7960, 7952), (7961, 7953), (7962, 7954), (7963, 7955), (7964, 7956),
  (7965, 7957), (7976, 7968), (7977, 7969), (7978, 7970), (7979, 7971), (7980, 7972), (7981, 7973), (7982, 7974),
  (7983, 7975), (7992, 7984), (7993, 7985), (7994, 7986), (7995, 7987), (7996, 7988), (7997, 7989), (7998, 7990),
  (7999, 7991), (8008, 8000), (8009, 8001), (8010, 8002), (8011, 8003), (8012, 8004), (8013, 8005), (8025, 8017),
  (8027, 8019), (8029, 8021), (8031, 8023), (8040, 8032), (8041, 8033), (8042, 8034), (8043, 8035), (8044, 8036),
  (8045, 8037), (8046, 8038), (8047, 8039), (8072, 8064), (8073, 8065), (8074, 8066), (8075, 8067), (8076, 8068),
  (8077, 8069), (8078, 8070), (8079, 8071), (8088, 8080), (8089, 8081), (8090, 8082), (8091, 8083), (8092, 8084),
  (8093, 8085), (8094, 8086), (8095, 8087), (8104, 8096), (8105, 8097), (8106, 8098), (8107, 8099), (8108, 8100),
  (8109, 8101), (8110, 8102), (8111, 8103), (8120, 8112), (8121, 8113), (8122, 8048), (8123, 8049), (8124, 8115),
  (8136, 8050), (8137, 8051), (8138, 8052), (8139, 8053), (8140, 8131), (8152, 8144), (8153, 8145), (8154, 8054),
  (8155, 8055), (8168, 8160), (8169, 8161), (8170, 8058), (8171, 8059), (8172, 8165), (8184, 8056), (8185, 8057),
  (8186, 8060), (8187, 8061), (8188, 8179), (8486, 969), (8490, 107), (8491, 229), (8498, 8526), (8544, 8560),
  (8545, 8561), (8546, 8562), (8547, 8563), (8548, 8564), (8549, 8565), (8550, 8566), (8551, 8567), (8552, 8568),
  (8553, 8569), (8554, 8570), (8555, 8571), (8556, 8572), (8557, 8573), (8558, 8574), (8559, 8575), (8579, 8580),
  (9398, 9424), (9399, 9425), (9400, 9426), (9401, 9427), (9402, 9428), (9403, 9429), (9404, 9430), (9405, 9431),
  (9406, 9432), (9407, 9433), (9408, 9434), (9409, 9435), (9410, 9436), (9411, 9437), (9412, 9438), (9413, 9439),
  (9414, 9440), (9415, 9441), (9416, 9442), (9417, 9443), (9418, 9444), (9419, 9445), (9420, 9446), (9421, 9447),
  (9422, 9448), (9423, 9449), (11264, 11312), (11265, 11313), (11266, 11314), (11267, 11315), (11268, 11316), (11269, 11317),
  (11270, 11318), (11271, 11319), (11272, 11320), (11273, 11321), (11274, 11322), (11275, 11323), (11276, 11324), (11277, 11325),
  (11278, 11326), (11279, 11327), (11280, 11328), (11281, 11329), (11282, 11330), (11283, 11331), (11284, 11332), (11285, 11333),
  (11286, 11334), (11287, 11335), (11288, 11336), (11289, 11337), (11290, 11338), (11291, 11339), (11292, 11340), (11293, 11341),
  (11294, 11342), (11295, 11343), (11296, 11344), (11297, 11345), (11298, 11346), (11299, 11347), (11300, 11348), (11301, 11349),
  (11302, 11350), (11303, 11351), (11304, 11352), (11305, 11353), (11306, 11354), (11307, 11355), (11308, 11356), (11309, 11357),
  (11310, 11358), (11311, 11359), (11360, 11361), (11362, 619), (11363, 7549), (11364, 637), (11367, 11368), (11369, 11370),
  (11371, 11372), (11373, 593), (11374, 625), (11375, 592), (11376, 594), (11378, 11379), (11381, 11382), (11390, 575),
  (11391, 576), (11392, 11393), (11394, 11395), (11396, 11397), (11398, 11399), (11400, 11401), (11402, 11403), (11404, 11405),
  (11406, 11407), (11408, 11409), (11410, 11411), (11412, 11413), (11414, 11415), (11416, 11417), (11418, 11419), (11420, 11421),
  (11422, 11423), (11424, 11425), (11426, 11427), (11428, 11429), (11430, 11431), (11432, 11433), (11434, 11435), (11436, 11437),
  (11438, 11439), (11440, 11441), (11442, 11443), (11444, 11445), (11446, 11447), (11448, 11449), (11450, 11451), (11452, 11453),
  (11454, 11455), (11456, 11457), (11458, 11459), (11460, 11461), (11462, 11463), (11464, 11465), (11466, 11467), (11468, 11469),
  (11470, 11471), (11472, 11473), (11474, 11475), (11476, 11477), (11478, 11479), (11480, 11481), (11482, 11483), (11484, 11485),
  (11486, 11487), (11488, 11489), (11490, 11491), (11499, 11500), (11501, 11502), (11506, 11507), (42560, 42561), (42562, 42563),
  (42564, 42565), (42566, 42567), (42568, 42569), (42570, 42571), (42572, 42573), (42574, 42575), (42576, 42577), (42578, 42579),
  (42580, 42581), (42582, 42583), (42584, 42585), (42586, 42587), (42588, 42589), (42590, 42591), (42592, 42593), (42594, 42595),
  (42596, 42597), (42598, 42599), (42600, 42601), (42602, 42603), (42604, 42605), (42624, 42625), (42626, 42627), (42628, 42629),
  (42630, 42631), (42632, 42633), (42634, 42635), (42636, 42637), (42638, 42639), (42640, 42641), (42642, 42643), (42644, 42645),
  (42646, 42647), (42648, 42649), (42650, 42651), (42786, 42787), (42788, 42789), (42790, 42791), (42792, 42793), (42794, 42795),
  (42796, 42797), (42798, 42799), (42802, 42803), (42804, 42805), (42806, 42807), (42808, 42809), (42810, 42811), (42812, 42813),
  (42814, 42815), (42816, 42817), (42818, 42819), (42820, 42821), (42822, 42823), (42824, 42825), (42826, 42827), (42828, 42829),
  (42830, 42831), (42832, 42833), (42834, 42835), (42836, 42837), (42838, 42839), (42840, 42841), (42842, 42843), (42844, 42845),
  (42846, 42847), (42848, 42849), (42850, 42851), (42852, 42853), (42854, 42855), (42856, 42857), (42858, 42859), (42860, 42861),
  (42862, 42863), (42873, 42874), (42875, 42876), (42877, 7545), (42878, 42879), (42880, 42881), (42882, 42883), (42884, 42885),
  (42886, 42887), (42891, 42892), (42893, 613), (42896, 42897), (42898, 42899), (42902, 42903), (42904, 42905), (42906, 42907),
  (42908, 42909), (42910, 42911), (42912, 42913), (42914, 42915), (42916, 42917), (42918, 42919), (42920, 42921), (42922, 614),
  (42923, 604), (42924, 609), (42925, 620), (42926, 618), (42928, 670), (42929, 647), (42930, 669), (42931, 43859),
  (42932, 42933), (42934, 42935), (42936, 42937), (42938, 42939), (42940, 42941), (42942, 42943), (42944, 42945), (42946, 42947),
  (42948, 42900), (42949, 642), (42950, 7566), (42951, 42952), (42953, 42954), (42960, 42961), (42966, 42967), (42968, 42969),
  (42997, 42998), (65313, 65345), (65314, 65346), (65315, 65347), (65316, 65348), (65317, 65349), (65318, 65350), (65319, 65351),
  (65320, 65352), (65321, 65353), (65322, 65354), (65323, 65355), (65324, 65356), (65325, 65357), (65326, 65358), (65327, 65359),
  (65328, 65360), (65329, 65361), (65330, 65362), (65331, 65363), (65332, 65364), (65333, 65365), (65334, 65366), (65335, 65367),
  (65336, 65368), (65337, 65369), (65338, 65370), (66560, 66600), (66561, 66601), (66562, 66602), (66563, 66603), (66564, 66604),
  (66565, 66605), (66566, 66606), (66567, 66607), (66568, 66608), (66569, 66609), (66570, 66610), (66571, 66611), (66572, 66612),
  (66573, 66613), (66574, 66614), (66575, 66615), (66576, 66616), (66577, 66617), (66578, 66618), (66579, 66619), (66580, 66620),
  (66581, 66621), (66582, 66622), (66583, 66623), (66584, 66624), (66585, 66625), (66586, 66626), (66587, 66627), (66588, 66628),
  (66589, 66629), (66590, 66630), (66591, 66631), (66592, 66632), (66593, 66633), (66594, 66634), (66595, 66635), (66596, 66636),
  (66597, 66637), (66598, 66638), (66599, 66639), (66736, 66776), (66737, 66777), (66738, 66778), (66739, 66779), (66740, 66780),
  (66741, 66781), (66742, 66782), (66743, 66783), (66744, 66784), (66745, 66785), (66746, 66786), (66747, 66787), (66748, 66788),
  (66749, 66789), (66750, 66790), (66751, 66791), (66752, 66792), (66753, 66793), (66754, 66794), (66755, 66795), (66756, 66796),
  (66757, 66797), (66758, 66798), (66759, 66799), (66760, 66800), (66761, 66801), (66762, 66802), (66763, 66803), (66764, 66804),
  (66765, 66805), (66766, 66806), (66767, 66807), (66768, 66808), (66769, 66809), (66770, 66810), (66771, 66811), (66928, 66967),
  (66929, 66968), (66930, 66969), (66931, 66970), (66932, 66971), (66933, 66972), (66934, 66973), (66935, 66974), (66936, 66975),
  (66937, 66976), (66938, 66977), (66940, 66979), (66941, 66980), (66942, 66981), (66943, 66982), (66944, 66983), (66945, 66984),
  (66946, 66985), (66947, 66986), (66948, 66987), (66949, 66988), (66950, 66989), (66951, 66990), (66952, 66991), (66953, 66992),
  (66954, 66993), (66956, 66995), (66957, 66996), (66958, 66997), (66959, 66998), (66960, 66999), (66961, 67000), (66962, 67001),
  (66964, 67003), (66965, 67004), (68736, 68800), (68737, 68801), (68738, 68802), (68739, 68803), (68740, 68804), (68741, 68805),
  (68742, 68806), (68743, 68807), (68744, 68808), (68745, 68809), (68746, 68810), (68747, 68811), (68748, 68812), (68749, 68813),
  (68750, 68814), (68751, 68815), (68752, 68816), (68753, 68817), (68754, 68818), (68755, 68819), (68756, 68820), (68757, 68821),
  (68758, 68822), (68759, 68823), (68760, 68824), (68761, 68825), (68762, 68826), (68763, 68827), (68764, 68828), (68765, 68829),
  (68766, 68830), (68767, 68831), (68768, 68832), (68769, 68833), (68770, 68834), (68771, 68835), (68772, 68836), (68773, 68837),
  (68774, 68838), (68775, 68839), (68776, 68840), (68777, 68841), (68778, 68842), (68779, 68843), (68780, 68844), (68781, 68845),
  (68782, 68846), (68783, 68847), (68784, 68848), (68785, 68849), (68786, 68850), (71840, 71872), (71841, 71873), (71842, 71874),
  (71843, 71875), (71844, 71876), (71845, 71877), (71846, 71878), (71847, 71879), (71848, 71880), (71849, 71881), (71850, 71882),
  (71851, 71883), (71852, 71884), (71853, 71885), (71854, 71886), (71855, 71887), (71856, 71888), (71857, 71889), (71858, 71890),
  (71859, 71891), (71860, 71892), (71861, 71893), (71862, 71894), (71863, 71895), (71864, 71896), (71865, 71897), (71866, 71898),
  (71867, 71899), (71868, 71900), (71869, 71901), (71870, 71902), (71871, 71903), (93760, 93792), (93761, 93793), (93762, 93794),
  (93763, 93795), (93764, 93796), (93765, 93797), (93766, 93798), (93767, 93799), (93768, 93800), (93769, 93801), (93770, 93802),
  (93771, 93803), (93772, 93804), (93773, 93805), (93774, 93806), (93775, 93807), (93776, 93808), (93777, 93809), (93778, 93810),
  (93779, 93811), (93780, 93812), (93781, 93813), (93782, 93814), (93783, 93815), (93784, 93816), (93785, 93817), (93786, 93818),
  (93787, 93819), (93788, 93820), (93789, 93821), (93790, 93822), (93791, 93823), (125184, 125218), (125185, 125219), (125186, 125220),
  (125187, 125221), (125188, 125222), (125189, 125223), (125190, 125224), (125191, 125225), (125192, 125226), (125193, 125227), (125194, 125228),
  (125195, 125229), (125196, 125230), (125197, 125231), (125198, 125232), (125199, 125233), (125200, 125234), (125201, 125235), (125202, 125236),
  (125203, 125237), (125204, 125238), (125205, 125239), (125206, 125240), (125207, 125241), (125208, 125242), (125209, 125243), (125210, 125244),
  (125211, 125245), (125212, 125246), (125213, 125247), (125214, 125248), (125215, 125249), (125216, 125250), (125217, 125251)]

/-- Go: `unicode.ToLower`, applied per rune by `strings.ToLower`: the ASCII
fast path (`'A'..'Z'` shifted by 32, everything else at or below `0x7F`
unchanged), then the simple lowercase mapping table for the rest. -/
def goToLowerChar (c : Char) : Char :=
  if c.toNat ≤ 127 then
    if 65 ≤ c.toNat ∧ c.toNat ≤ 90 then Char.ofNat (c.toNat + 32) else c
  else
    match goCaseTable.find? (fun e => e.1 == c.toNat) with
    | some e => Char.ofNat e.2
    | none => c

/-- Bit set of the table's key code points, for reasoning about lookups. -/
def goKeyMask : Nat := goCaseTable.foldl (fun a e => a ||| (1 <<< e.1)) 0

/-- Bit set of the table's image code points. -/
def goImageMask : Nat := goCaseTable.foldl (fun a e => a ||| (1 <<< e.2)) 0

/-- Checks that every image of the table is a valid code point and is not an
ASCII uppercase letter (so lowering an image never re-enters the ASCII
upper-case branch). -/
def tableImagesOk : Bool :=
  goCaseTable.all (fun e => decide (Nat.isValidChar e.2) && (decide (e.2 < 65) || decide (90 < e.2)))

/-- Go: `strings.ToLower` — `unicode.ToLower` applied rune-by-rune. -/
def stringsToLower (s : String) : String :=
  ⟨s.data.map goToLowerChar⟩

/-- Go: `strings.NewReplacer(":", "", "-", "", ".", "").Replace` — deleting
every occurrence of the three delimiter characters. -/
def stripMACDelimiters (s : String) : String :=
  ⟨s.data.filter (fun c => !(c == ':' || c == '-' || c == '.'))⟩

/-- Go: `normalizeMACAddress` in `utils.go` (the same composition appears
inline in `radiusHandler`): lower-case, then strip delimiters. -/
def normalizeMACAddress (mac : String) : String :=
  stripMACDelimiters (stringsToLower mac)

/-- One character of the regexp character class `[0-9a-f]`. -/
def isLowerHexDigit (c : Char) : Bool :=
  ('0' ≤ c && c ≤ '9') || ('a' ≤ c && c ≤ 'f')

/-- Go: `isValidMACFormat` in `utils.go` —
`regexp.MatchString("^[0-9a-f]{12}$", mac)`: exactly twelve characters, each
in the class `[0-9a-f]`.  (The Go call's error result is always `nil` for
this fixed, well-formed pattern.) -/
def isValidMACFormat (mac : String) : Bool :=
  mac.data.length == 12 && mac.data.all isLowerHexDigit

/-- Go: `strings.ToUpper`, rune-by-rune (ASCII on the modelled path). -/
def stringsToUpper (s : String) : String :=
  ⟨s.data.map Char.toUpper⟩

/-- Go slice `mac[a:b]` on an ASCII string, as characters. -/
def goSlice (l : List Char) (a b : Nat) : List Char :=
  (l.drop a).take (b - a)

/-- Go: `prettyPrintMACAddress` in `utils.go`: empty for invalid input,
otherwise upper-case with `:` re-inserted every two characters. -/
def prettyPrintMACAddress (mac : String) : String :=
  if !isValidMACFormat mac then ""
  else
    let l := mac.data
    stringsToUpper ⟨goSlice l 0 2 ++ ':' :: goSlice l 2 4 ++ ':' :: goSlice l 4 6 ++
      ':' :: goSlice l 6 8 ++ ':' :: goSlice l 8 10 ++ ':' :: goSlice l 10 12⟩

/-! ## Called-Station-Id parsing (`radius.go` lines 76–78) -/

/-- Go: `strings.Split(s, sep)` for a one-character separator, on character
lists.  `strings.Split` always returns at least one (possibly empty) piece. -/
def stringsSplit (sep : Char) : List Char → List (List Char)
  | [] => [[]]
  | c :: cs =>
    match stringsSplit sep cs with
    | [] => [[]]
    | g :: gs => if c == sep then [] :: g :: gs else (c :: g) :: gs

/-- Go: `csiParts := strings.Split(calledStationID, ":")` followed by
`csiParts[len(csiParts)-1]` — the last colon-delimited segment. -/
def lastColonSegment (s : String) : String :=
  ⟨(stringsSplit ':' s.data).getLastD []⟩

/-! ## Permission store (`radius.go`: `macdatabase.GetMACRecord`) -/

/-- Row of the `macaddress` table (Go struct `macaddress`). -/
structure MacAddressRow where
  id : Int
  macaddress : String
deriving DecidableEq, Repr

/-- Row of the `devicegroup` table (Go struct `devicegroup`). -/
structure DeviceGroupRow where
  id : Int
  name : String
deriving DecidableEq, Repr

/-- Row of the `ssid` table (Go struct `ssid`). -/
structure SSIDRow where
  id : Int
  ssid : String
deriving DecidableEq, Repr

/-- Go struct `macrecord`: the device row together with its groups and the
union of its groups' SSIDs, as returned by `GetMACRecord`. -/
structure MacRecord where
  macaddress : MacAddressRow
  devicegroup : List DeviceGroupRow
  ssid : List SSIDRow
deriving DecidableEq, Repr

/-- The SQLite schema created by `macdatabase.initialize`: the three entity
tables and the two many-to-many join tables (`macaddress_devicegroup` and
`group_ssid`, each a pair of integer foreign keys). -/
structure MacDatabase where
  macaddressTable : List MacAddressRow
  devicegroupTable : List DeviceGroupRow
  ssidTable : List SSIDRow
  macaddress_devicegroup : List (Int × Int)
  group_ssid : List (Int × Int)
deriving Repr

/-- The two ways `GetMACRecord` returns a non-nil error to the handler:
`sql.ErrNoRows` from the `QueryRow(...).Scan` when no `macaddress` row
matches, or any other database error (a storage fault). -/
inductive LookupErr where
  | errNoRows
  | storageFault
deriving DecidableEq, Repr

/-- Go: `macdatabase.GetMACRecord` on a fault-free store.
Query 1: `SELECT id, macaddress FROM macaddress WHERE macaddress = ? LIMIT 1`
(`sql.ErrNoRows` when empty).  Query 2: the `DISTINCT` join of `devicegroup`
with `macaddress_devicegroup` on the device id.  Query 3: the `DISTINCT`
join of `ssid` with `group_ssid` with `macaddress_devicegroup` on the device
id — the union over the device's groups. -/
def GetMACRecord (db : MacDatabase) (m : String) : Except LookupErr MacRecord :=
  match db.macaddressTable.find? (fun row => row.macaddress == m) with
  | none => .error .errNoRows
  | some row =>
    let groups := (db.devicegroupTable.filter (fun dg =>
      db.macaddress_devicegroup.any (fun md => md.1 == row.id && md.2 == dg.id))).dedup
    let ssids := (db.ssidTable.filter (fun ss =>
      db.group_ssid.any (fun gs => gs.2 == ss.id &&
        db.macaddress_devicegroup.any (fun md => md.1 == row.id && md.2 == gs.1)))).dedup
    .ok { macaddress := row, devicegroup := groups, ssid := ssids }

/-! ## RADIUS handler (`radius.go`: `radiusHandler`) -/

/-- RADIUS response codes used by the handler. -/
inductive RadiusCode where
  | accessAccept
  | accessReject
deriving DecidableEq, Repr

/-- Value of `rfc2865.NASPortType_Value_Wireless80211`. -/
def NASPortType_Value_Wireless80211 : Nat := 19

/-- Value of `rfc2865.NASPortType_Value_WirelessOther`. -/
def NASPortType_Value_WirelessOther : Nat := 18

/-- The handler's `log` calls, abstracted to their call sites.  All four go
through the level-less standard `log` package (`log.Println`/`log.Printf`). -/
inductive LogEvent where
  | invalidNASPortType
  | invalidMACFormat
  | didNotFindRecord (mac : String) (err : LookupErr)
  | receivedDecision (mac : String) (code : RadiusCode) (ssid : String)
deriving DecidableEq, Repr

/-- Which call site produced a log event, with payloads erased. -/
def LogEvent.kind : LogEvent → Nat
  | .invalidNASPortType => 0
  | .invalidMACFormat => 1
  | .didNotFindRecord _ _ => 2
  | .receivedDecision _ _ _ => 3

/-- Everything observable about one run of `radiusHandler`: the response
code written back, the arguments of the `GetMACRecord` calls made, and the
log lines emitted. -/
structure HandlerResult where
  code : RadiusCode
  storeLookups : List String
  logs : List LogEvent
deriving DecidableEq, Repr

/-- Go: `radiusHandler` in `radius.go`, parameterised by the store lookup
(`rs.DB.GetMACRecord`).  `code` defaults to `AccessReject`; the username is
lower-cased and delimiter-stripped; the format is checked against
`^[0-9a-f]{12}$`; the SSID is the last colon-delimited segment of the
Called-Station-Id; the `switch` rejects non-wireless port types, then bad
formats, and otherwise looks the MAC up, accepting iff some SSID row of the
record equals the requested SSID (the `for` loop). -/
def radiusHandler (lookup : String → Except LookupErr MacRecord)
    (username : String) (nasPortType : Nat) (calledStationID : String) : HandlerResult :=
  let mac := normalizeMACAddress username
  let validFormat := isValidMACFormat mac
  let requestedSSID := lastColonSegment calledStationID
  if nasPortType != NASPortType_Value_Wireless80211 &&
      nasPortType != NASPortType_Value_WirelessOther then
    { code := .accessReject, storeLookups := [], logs := [.invalidNASPortType] }
  else if !validFormat then
    { code := .accessReject, storeLookups := [], logs := [.invalidMACFormat] }
  else
    match lookup mac with
    | .error e =>
      { code := .accessReject, storeLookups := [mac],
        logs := [.didNotFindRecord mac e,
          .receivedDecision mac .accessReject requestedSSID] }
    | .ok record =>
      let code := if record.ssid.any (fun s => s.ssid == requestedSSID) then
        RadiusCode.accessAccept else .accessReject
      { code := code, storeLookups := [mac],
        logs := [.receivedDecision mac code requestedSSID] }

/-- The spec's union-of-groups authorization set, written from the spec's
words ("the union of the networks authorized by all of the device's
groups"): for each group associated to the device, the SSIDs that group
authorizes, concatenated over all the device's groups. -/
def specAuthorizedUnion (db : MacDatabase) (devId : Int) : List String :=
  ((db.macaddress_devicegroup.filter (fun md => md.1 == devId)).map (·.2)).flatMap
    (fun g => (db.ssidTable.filter (fun ss =>
      db.group_ssid.any (fun gs => gs.1 == g && gs.2 == ss.id))).map (·.ssid))

/-- The spec's concrete scenario: device `aabbccddeeff` in group "Staff"
which authorizes SSID "CorpNet"; a second registered device in a group with
no networks. -/
def exampleDB : MacDatabase where
  macaddressTable := [⟨1, "aabbccddeeff"⟩, ⟨2, "112233445566"⟩]
  devicegroupTable := [⟨10, "Staff"⟩, ⟨11, "Empty"⟩]
  ssidTable := [⟨100, "CorpNet"⟩, ⟨101, "GuestNet"⟩]
  macaddress_devicegroup := [(1, 10), (2, 11)]
  group_ssid := [(10, 100)]

/-- The record `GetMACRecord exampleDB "aabbccddeeff"` returns. -/
def exampleRecord : MacRecord where
  macaddress := ⟨1, "aabbccddeeff"⟩
  devicegroup := [⟨10, "Staff"⟩]
  ssid := [⟨100, "CorpNet"⟩]

end SWRA

namespace SWRA

/-! ## Character-level lemmas -/

theorem char_le_iff_toNat {a b : Char} : a ≤ b ↔ a.toNat ≤ b.toNat := by
  rw [Char.le_def, UInt32.le_def, BitVec.le_def]
  rfl

theorem lowerHex_enum (c : Char) (h : isLowerHexDigit c = true) :
    c ∈ ['a', 'b', 'c', 'd', 'e', 'f', '0', '1', '2', '3', '4', '5', '6', '7', '8', '9'] := by
  simp only [isLowerHexDigit, Bool.or_eq_true, Bool.and_eq_true, decide_eq_true_eq] at h
  have hc : Char.ofNat c.toNat = c := Char.ofNat_toNat c
  rcases h with ⟨h1, h2⟩ | ⟨h1, h2⟩
  · rw [char_le_iff_toNat] at h1 h2
    have h1' : 48 ≤ c.toNat := h1
    have h2' : c.toNat ≤ 57 := h2
    set n := c.toNat with hn
    interval_cases n <;> rw [← hc] <;> decide
  · rw [char_le_iff_toNat] at h1 h2
    have h1' : 97 ≤ c.toNat := h1
    have h2' : c.toNat ≤ 102 := h2
    set n := c.toNat with hn
    interval_cases n <;> rw [← hc] <;> decide

set_option maxHeartbeats 4000000 in
set_option maxRecDepth 16384 in
theorem goMasks_disjoint : goKeyMask &&& goImageMask = 0 := by decide

set_option maxHeartbeats 4000000 in
set_option maxRecDepth 16384 in
theorem tableImagesOk_true : tableImagesOk = true := by decide

theorem foldlKey_monotone (l : List (Nat × Nat)) (acc : Nat) (v : Nat)
    (h : acc.testBit v = true) :
    (l.foldl (fun a e => a ||| (1 <<< e.1)) acc).testBit v = true := by
  induction l generalizing acc with
  | nil => exact h
  | cons x xs ih =>
    rw [List.foldl_cons]
    apply ih
    rw [Nat.testBit_or, h]
    simp

theorem foldlImage_monotone (l : List (Nat × Nat)) (acc : Nat) (v : Nat)
    (h : acc.testBit v = true) :
    (l.foldl (fun a e => a ||| (1 <<< e.2)) acc).testBit v = true := by
  induction l generalizing acc with
  | nil => exact h
  | cons x xs ih =>
    rw [List.foldl_cons]
    apply ih
    rw [Nat.testBit_or, h]
    simp

theorem shiftLeft_one_testBit_self (k : Nat) : (1 <<< k).testBit k = true := by
  rw [Nat.testBit_shiftLeft]
  simp [Nat.testBit_one_eq_true_iff_self_eq_zero]

theorem foldlImage_mem :
    ∀ (l : List (Nat × Nat)) (acc : Nat) (x : Nat × Nat), x ∈ l →
      (l.foldl (fun a e => a ||| (1 <<< e.2)) acc).testBit x.2 = true
  | [], _, x, hx => absurd hx (List.not_mem_nil x)
  | y :: ys, acc, x, hx => by
    rw [List.foldl_cons]
    rcases List.mem_cons.mp hx with rfl | hmem
    · apply foldlImage_monotone
      rw [Nat.testBit_or, shiftLeft_one_testBit_self]
      simp
    · exact foldlImage_mem ys _ x hmem

theorem foldlKey_not_mem :
    ∀ (l : List (Nat × Nat)) (acc : Nat) (v : Nat),
      (l.foldl (fun a e => a ||| (1 <<< e.1)) acc).testBit v = false →
      ∀ x ∈ l, x.1 ≠ v
  | [], _, _, _ => by simp
  | y :: ys, acc, v, h => by
    rw [List.foldl_cons] at h
    intro x hx
    rcases List.mem_cons.mp hx with rfl | hmem
    · intro hgv
      have hset : ((acc ||| (1 <<< x.1)).testBit x.1) = true := by
        rw [Nat.testBit_or, shiftLeft_one_testBit_self]
        simp
      have hall := foldlKey_monotone ys (acc ||| (1 <<< x.1)) x.1 hset
      rw [← hgv] at h
      rw [hall] at h
      exact Bool.noConfusion h
    · exact foldlKey_not_mem ys _ v h x hmem

theorem key_not_of_imageBit (v : Nat) (himg : goImageMask.testBit v = true) :
    ∀ e ∈ goCaseTable, e.1 ≠ v := by
  have hd := congrArg (fun n => Nat.testBit n v) goMasks_disjoint
  simp only [Nat.testBit_and, Nat.zero_testBit] at hd
  rw [himg] at hd
  simp only [Bool.and_true] at hd
  unfold goKeyMask at hd
  exact foldlKey_not_mem goCaseTable 0 v hd

theorem imageBit (e : Nat × Nat) (he : e ∈ goCaseTable) : goImageMask.testBit e.2 = true := by
  unfold goImageMask
  exact foldlImage_mem goCaseTable 0 e he

theorem char_toNat_ofNat_of_valid (n : Nat) (h : n.isValidChar) : (Char.ofNat n).toNat = n := by
  unfold Char.ofNat
  rw [dif_pos h]
  rfl

theorem goToLowerChar_ascii_nonupper (c : Char) (h127 : c.toNat ≤ 127)
    (hnup : ¬(65 ≤ c.toNat ∧ c.toNat ≤ 90)) : goToLowerChar c = c := by
  unfold goToLowerChar
  rw [if_pos h127, if_neg hnup]

theorem imageFixed (e : Nat × Nat) (he : e ∈ goCaseTable) :
    goToLowerChar (Char.ofNat e.2) = Char.ofNat e.2 := by
  have hall := tableImagesOk_true
  unfold tableImagesOk at hall
  rw [List.all_eq_true] at hall
  have he2 := hall e he
  simp only [Bool.and_eq_true, Bool.or_eq_true, decide_eq_true_eq] at he2
  obtain ⟨hvalid, hrange⟩ := he2
  have htoNat : (Char.ofNat e.2).toNat = e.2 := char_toNat_ofNat_of_valid e.2 hvalid
  by_cases h127 : e.2 ≤ 127
  · apply goToLowerChar_ascii_nonupper
    · rw [htoNat]; exact h127
    · rw [htoNat]
      rintro ⟨ha, hb⟩
      rcases hrange with h | h <;> omega
  · have hnotkey := key_not_of_imageBit e.2 (imageBit e he)
    have hfnone : goCaseTable.find? (fun x => x.1 == (Char.ofNat e.2).toNat) = none := by
      cases hf2 : goCaseTable.find? (fun x => x.1 == (Char.ofNat e.2).toNat) with
      | none => rfl
      | some e2 =>
        have hp := List.find?_some hf2
        simp only [htoNat, beq_iff_eq] at hp
        exact absurd hp (hnotkey e2 (List.mem_of_find?_eq_some hf2))
    unfold goToLowerChar
    rw [if_neg (by rw [htoNat]; exact h127), hfnone]

theorem goToLowerChar_idem (c : Char) : goToLowerChar (goToLowerChar c) = goToLowerChar c := by
  by_cases h127 : c.toNat ≤ 127
  · by_cases hup : 65 ≤ c.toNat ∧ c.toNat ≤ 90
    · obtain ⟨h1, h2⟩ := hup
      have hc : Char.ofNat c.toNat = c := Char.ofNat_toNat c
      set n := c.toNat with hn
      interval_cases n <;> rw [← hc] <;> decide
    · rw [goToLowerChar_ascii_nonupper c h127 hup, goToLowerChar_ascii_nonupper c h127 hup]
  · cases hf : goCaseTable.find? (fun e => e.1 == c.toNat) with
    | none =>
      have h1 : goToLowerChar c = c := by
        unfold goToLowerChar
        rw [if_neg h127, hf]
      rw [h1, h1]
    | some e =>
      have h1 : goToLowerChar c = Char.ofNat e.2 := by
        unfold goToLowerChar
        rw [if_neg h127, hf]
      rw [h1]
      exact imageFixed e (List.mem_of_find?_eq_some hf)

theorem hex_toLower_toUpper (c : Char) (h : isLowerHexDigit c = true) :
    goToLowerChar (c.toUpper) = c := by
  have := lowerHex_enum c h
  fin_cases this <;> decide

theorem hex_not_delim (c : Char) (h : isLowerHexDigit c = true) :
    (!(c == ':' || c == '-' || c == '.')) = true := by
  have := lowerHex_enum c h
  fin_cases this <;> decide

/-! ## Normalization lemmas -/

theorem filter_map_toLower_idem (p : Char → Bool) (l : List Char) :
    (((l.map goToLowerChar).filter p).map goToLowerChar).filter p
      = (l.map goToLowerChar).filter p := by
  have hfix : ∀ c ∈ (l.map goToLowerChar).filter p, goToLowerChar c = id c := by
    intro c hc
    rw [List.mem_filter] at hc
    obtain ⟨hcm, _⟩ := hc
    rw [List.mem_map] at hcm
    obtain ⟨a, _, rfl⟩ := hcm
    exact goToLowerChar_idem a
  rw [List.map_congr_left hfix, List.map_id]
  rw [List.filter_eq_self.mpr]
  intro a ha
  exact (List.mem_filter.mp ha).2

/-! ## `strings.Split` lemmas -/

theorem stringsSplit_ne_nil (sep : Char) (l : List Char) : stringsSplit sep l ≠ [] := by
  cases l with
  | nil => simp [stringsSplit]
  | cons c cs =>
    unfold stringsSplit
    cases h : stringsSplit sep cs with
    | nil => simp
    | cons g gs => dsimp only; split <;> simp

theorem stringsSplit_no_sep (sep : Char) (l : List Char) (h : ∀ c ∈ l, c ≠ sep) :
    stringsSplit sep l = [l] := by
  induction l with
  | nil => rfl
  | cons c cs ih =>
    have hcs : stringsSplit sep cs = [cs] := ih (fun x hx => h x (List.mem_cons_of_mem c hx))
    unfold stringsSplit
    rw [hcs]
    dsimp only
    rw [if_neg]
    simp only [beq_iff_eq]
    exact h c (List.mem_cons_self c cs)

theorem stringsSplit_length (sep : Char) (l : List Char) :
    (stringsSplit sep l).length = l.count sep + 1 := by
  induction l with
  | nil => rfl
  | cons c cs ih =>
    unfold stringsSplit
    cases h : stringsSplit sep cs with
    | nil => exact absurd h (stringsSplit_ne_nil sep cs)
    | cons g gs =>
      dsimp only
      rw [h] at ih
      by_cases hc : c = sep
      · subst hc
        rw [if_pos (by simp), List.count_cons_self]
        simpa using ih
      · rw [if_neg (by simp [hc]), List.count_cons_of_ne (fun h => hc h.symm)]
        simpa using ih

theorem stringsSplit_append_sep (sep : Char) (l : List Char) (d : List Char) :
    (stringsSplit sep (l ++ [sep])).getLastD d = [] := by
  induction l with
  | nil => simp [stringsSplit]
  | cons c cs ih =>
    have hne := stringsSplit_ne_nil sep (cs ++ [sep])
    show (stringsSplit sep (c :: (cs ++ [sep]))).getLastD d = []
    unfold stringsSplit
    cases h : stringsSplit sep (cs ++ [sep]) with
    | nil => exact absurd h hne
    | cons g gs =>
      dsimp only
      have hlen : (g :: gs).length = (cs ++ [sep]).count sep + 1 := by
        rw [← h]; exact stringsSplit_length _ _
      have hcount : 1 ≤ (cs ++ [sep]).count sep := by simp [List.count_append]
      have h2 : 2 ≤ (g :: gs).length := by
        rw [hlen]
        omega
      have hgs : gs ≠ [] := by
        cases gs with
        | nil => simp at h2
        | cons y ys => simp
      rw [h] at ih
      rw [List.getLastD_cons] at ih
      split
      all_goals simp only [List.getLastD_cons]
      all_goals try exact ih
      all_goals cases gs with
        | nil => exact absurd rfl hgs
        | cons y ys =>
          simp only [List.getLastD_cons] at ih ⊢
          exact ih

theorem lastColonSegment_no_colon (s : String) (h : ∀ c ∈ s.data, c ≠ ':') :
    lastColonSegment s = s := by
  unfold lastColonSegment
  rw [stringsSplit_no_sep ':' s.data h]
  rfl

theorem lastColonSegment_push_colon (s : String) :
    lastColonSegment (s.push ':') = "" := by
  unfold lastColonSegment
  have hdata : (s.push ':').data = s.data ++ [':'] := rfl
  rw [hdata, stringsSplit_append_sep]

theorem radiusHandler_csi_congr (lookup : String → Except LookupErr MacRecord)
    (u : String) (npt : Nat) (csi csi' : String)
    (h : lastColonSegment csi = lastColonSegment csi') :
    radiusHandler lookup u npt csi = radiusHandler lookup u npt csi' := by
  unfold radiusHandler
  rw [h]

end SWRA

namespace SWRA

/-! ## Handler path lemmas -/

theorem RadiusCode.eq_reject_of_ne_accept {c : RadiusCode} (h : c ≠ .accessAccept) :
    c = .accessReject := by
  cases c with
  | accessAccept => exact absurd rfl h
  | accessReject => rfl

theorem wireless_gate_false (npt : Nat)
    (hw : npt = NASPortType_Value_Wireless80211 ∨ npt = NASPortType_Value_WirelessOther) :
    (npt != NASPortType_Value_Wireless80211 && npt != NASPortType_Value_WirelessOther)
      = false := by
  rcases hw with h | h <;> subst h <;> decide

theorem radiusHandler_ok_code (lookup : String → Except LookupErr MacRecord)
    (u : String) (npt : Nat) (csi : String) (record : MacRecord)
    (hw : npt = NASPortType_Value_Wireless80211 ∨ npt = NASPortType_Value_WirelessOther)
    (hv : isValidMACFormat (normalizeMACAddress u) = true)
    (hok : lookup (normalizeMACAddress u) = .ok record) :
    (radiusHandler lookup u npt csi).code =
      (if record.ssid.any (fun s => s.ssid == lastColonSegment csi) then
        RadiusCode.accessAccept else .accessReject) := by
  unfold radiusHandler
  rw [wireless_gate_false npt hw]
  simp only [Bool.false_eq_true, if_false, hv, Bool.not_true, hok]

theorem radiusHandler_portGate_eq (lookup : String → Except LookupErr MacRecord)
    (u : String) (npt : Nat) (csi : String)
    (h19 : npt ≠ NASPortType_Value_Wireless80211)
    (h18 : npt ≠ NASPortType_Value_WirelessOther) :
    radiusHandler lookup u npt csi =
      { code := .accessReject, storeLookups := [], logs := [.invalidNASPortType] } := by
  simp only [radiusHandler]
  rw [if_pos]
  simp [h19, h18]

theorem radiusHandler_invalid_eq (lookup : String → Except LookupErr MacRecord)
    (u : String) (npt : Nat) (csi : String)
    (hw : npt = NASPortType_Value_Wireless80211 ∨ npt = NASPortType_Value_WirelessOther)
    (hv : isValidMACFormat (normalizeMACAddress u) = false) :
    radiusHandler lookup u npt csi =
      { code := .accessReject, storeLookups := [], logs := [.invalidMACFormat] } := by
  simp only [radiusHandler]
  rw [wireless_gate_false npt hw]
  simp [hv]

theorem radiusHandler_error_eq (lookup : String → Except LookupErr MacRecord)
    (u : String) (npt : Nat) (csi : String) (e : LookupErr)
    (hw : npt = NASPortType_Value_Wireless80211 ∨ npt = NASPortType_Value_WirelessOther)
    (hv : isValidMACFormat (normalizeMACAddress u) = true)
    (he : lookup (normalizeMACAddress u) = .error e) :
    radiusHandler lookup u npt csi =
      { code := .accessReject, storeLookups := [normalizeMACAddress u],
        logs := [.didNotFindRecord (normalizeMACAddress u) e,
          .receivedDecision (normalizeMACAddress u) .accessReject (lastColonSegment csi)] } := by
  simp only [radiusHandler]
  rw [wireless_gate_false npt hw]
  simp only [Bool.false_eq_true, if_false, hv, Bool.not_true, he]

theorem radiusHandler_code_accept_iff (lookup : String → Except LookupErr MacRecord)
    (u : String) (npt : Nat) (csi : String) :
    (radiusHandler lookup u npt csi).code = .accessAccept ↔
      ((npt = NASPortType_Value_Wireless80211 ∨ npt = NASPortType_Value_WirelessOther) ∧
       isValidMACFormat (normalizeMACAddress u) = true ∧
       ∃ r, lookup (normalizeMACAddress u) = .ok r ∧
         r.ssid.any (fun s => s.ssid == lastColonSegment csi) = true) := by
  simp only [radiusHandler]
  cases hc1 : (npt != NASPortType_Value_Wireless80211 &&
      npt != NASPortType_Value_WirelessOther) with
  | true =>
    simp only [if_true]
    constructor
    · intro h
      exact absurd h (by simp)
    · rintro ⟨hw, -, -⟩
      rw [wireless_gate_false npt hw] at hc1
      exact absurd hc1 (by simp)
  | false =>
    have hw : npt = NASPortType_Value_Wireless80211 ∨
        npt = NASPortType_Value_WirelessOther := by
      simp only [Bool.and_eq_false_iff, bne_eq_false_iff_eq] at hc1
      rcases hc1 with h | h
      · exact Or.inl h
      · exact Or.inr h
    simp only [Bool.false_eq_true, if_false]
    cases hval : isValidMACFormat (normalizeMACAddress u) with
    | false =>
      simp only [hval, Bool.not_false, if_true]
      constructor
      · intro h
        exact absurd h (by simp)
      · rintro ⟨-, hv, -⟩
        exact absurd hv (by simp)
    | true =>
      simp only [hval, Bool.not_true, Bool.false_eq_true, if_false]
      cases hlk : lookup (normalizeMACAddress u) with
      | error e =>
        simp only []
        constructor
        · intro h
          exact absurd h (by simp)
        · rintro ⟨-, -, r, hr, -⟩
          exact absurd hr (by simp)
      | ok r =>
        simp only []
        cases hany : r.ssid.any (fun s => s.ssid == lastColonSegment csi) with
        | true =>
          simp only [hany, if_true]
          constructor
          · intro _
            exact ⟨hw, by simp, r, rfl, hany⟩
          · intro _
            simp
        | false =>
          simp only [hany, Bool.false_eq_true, if_false]
          constructor
          · intro h
            exact absurd h (by simp)
          · rintro ⟨-, -, r', hr', hany'⟩
            simp only [Except.ok.injEq] at hr'
            subst hr'
            rw [hany] at hany'
            exact absurd hany' (by simp)

/-! ## Store lemmas -/

theorem GetMACRecord_ok_elim (db : MacDatabase) (m : String) (record : MacRecord)
    (hok : GetMACRecord db m = .ok record) :
    ∃ row, db.macaddressTable.find? (fun r => r.macaddress == m) = some row ∧
      record.macaddress = row ∧
      record.ssid = (db.ssidTable.filter (fun ss =>
        db.group_ssid.any (fun gs => gs.2 == ss.id &&
          db.macaddress_devicegroup.any (fun md => md.1 == row.id && md.2 == gs.1)))).dedup := by
  unfold GetMACRecord at hok
  cases hfind : db.macaddressTable.find? (fun r => r.macaddress == m) with
  | none => rw [hfind] at hok; exact absurd hok (by simp)
  | some row =>
    rw [hfind] at hok
    simp only [Except.ok.injEq] at hok
    exact ⟨row, rfl, by rw [← hok], by rw [← hok]⟩

theorem record_ssid_mem_iff (db : MacDatabase) (row : MacAddressRow) (req : String) :
    ((db.ssidTable.filter (fun ss =>
        db.group_ssid.any (fun gs => gs.2 == ss.id &&
          db.macaddress_devicegroup.any (fun md => md.1 == row.id && md.2 == gs.1)))).dedup.any
      (fun s => s.ssid == req) = true) ↔
    req ∈ specAuthorizedUnion db row.id := by
  simp only [List.any_eq_true, List.mem_dedup, List.mem_filter, specAuthorizedUnion,
    List.mem_flatMap, List.mem_map, beq_iff_eq, Bool.and_eq_true]
  constructor
  · rintro ⟨s, ⟨hs, gs, hgsmem, hgs2, md, hmdmem, hmd1, hmd2⟩, hreq⟩
    exact ⟨gs.1, ⟨md, ⟨hmdmem, hmd1⟩, hmd2⟩, s, ⟨hs, gs, hgsmem, rfl, hgs2⟩, hreq⟩
  · rintro ⟨g, ⟨md, ⟨hmdmem, hmd1⟩, hmd2⟩, s, ⟨hs, gs, hgsmem, hgs1, hgs2⟩, hreq⟩
    exact ⟨s, ⟨hs, gs, hgsmem, hgs2, md, hmdmem, hmd1, by rw [hmd2, ← hgs1]⟩, hreq⟩

theorem GetMACRecord_notFound_iff (db : MacDatabase) (m : String) :
    GetMACRecord db m = .error .errNoRows ↔
      ∀ row ∈ db.macaddressTable, row.macaddress ≠ m := by
  unfold GetMACRecord
  cases hfind : db.macaddressTable.find? (fun r => r.macaddress == m) with
  | none =>
    rw [List.find?_eq_none] at hfind
    simp only [beq_iff_eq] at hfind
    simp only [true_iff]
    exact hfind
  | some row =>
    have hmem := List.mem_of_find?_eq_some hfind
    have hp := List.find?_some hfind
    simp only [beq_iff_eq] at hp
    constructor
    · intro h
      exact absurd h (by simp)
    · intro h
      exact absurd hp (h row hmem)

theorem GetMACRecord_no_fault (db : MacDatabase) (m : String) :
    GetMACRecord db m ≠ .error .storageFault := by
  unfold GetMACRecord
  cases hfind : db.macaddressTable.find? (fun r => r.macaddress == m) with
  | none => simp
  | some row => simp

theorem handler_error_paths_identical (lookupA lookupB : String → Except LookupErr MacRecord)
    (u : String) (npt : Nat) (csi : String) (eA eB : LookupErr)
    (hA : lookupA (normalizeMACAddress u) = .error eA)
    (hB : lookupB (normalizeMACAddress u) = .error eB) :
    (radiusHandler lookupA u npt csi).code = (radiusHandler lookupB u npt csi).code ∧
    (radiusHandler lookupA u npt csi).storeLookups
      = (radiusHandler lookupB u npt csi).storeLookups ∧
    (radiusHandler lookupA u npt csi).logs.map LogEvent.kind
      = (radiusHandler lookupB u npt csi).logs.map LogEvent.kind := by
  simp only [radiusHandler]
  cases hc1 : (npt != NASPortType_Value_Wireless80211 &&
      npt != NASPortType_Value_WirelessOther) with
  | true => simp
  | false =>
    simp only [Bool.false_eq_true, if_false]
    cases hval : isValidMACFormat (normalizeMACAddress u) with
    | false => simp
    | true =>
      simp only [Bool.not_true, Bool.false_eq_true, if_false]
      rw [hA, hB]
      simp [LogEvent.kind]

end SWRA

namespace SWRA

/-! ## Pretty-printer lemmas -/

theorem valid_elim (m : String) (hv : isValidMACFormat m = true) :
    m.data.length = 12 ∧ ∀ c ∈ m.data, isLowerHexDigit c = true := by
  unfold isValidMACFormat at hv
  simp only [Bool.and_eq_true, beq_iff_eq, List.all_eq_true] at hv
  exact hv

theorem clean_seg (seg : List Char) (h : ∀ c ∈ seg, isLowerHexDigit c = true) :
    ((seg.map Char.toUpper).map goToLowerChar).filter
      (fun c => !(c == ':' || c == '-' || c == '.')) = seg := by
  induction seg with
  | nil => rfl
  | cons c cs ih =>
    simp only [List.map_cons, List.filter_cons]
    rw [hex_toLower_toUpper c (h c (List.mem_cons_self c cs))]
    rw [if_pos (by simpa using hex_not_delim c (h c (List.mem_cons_self c cs)))]
    rw [ih (fun x hx => h x (List.mem_cons_of_mem c hx))]

theorem clean_append (x y : List Char) :
    (((x ++ y).map Char.toUpper).map goToLowerChar).filter
        (fun c => !(c == ':' || c == '-' || c == '.')) =
      ((x.map Char.toUpper).map goToLowerChar).filter
        (fun c => !(c == ':' || c == '-' || c == '.')) ++
      ((y.map Char.toUpper).map goToLowerChar).filter
        (fun c => !(c == ':' || c == '-' || c == '.')) := by
  simp [List.map_append, List.filter_append]

theorem clean_colon_cons (y : List Char) :
    (((':' :: y).map Char.toUpper).map goToLowerChar).filter
        (fun c => !(c == ':' || c == '-' || c == '.')) =
      ((y.map Char.toUpper).map goToLowerChar).filter
        (fun c => !(c == ':' || c == '-' || c == '.')) := by
  simp only [List.map_cons, List.filter_cons]
  rw [if_neg (by decide)]

theorem seg_reassemble (l : List Char) (hlen : l.length = 12) :
    l.take 2 ++ ((l.drop 2).take 2 ++ ((l.drop 4).take 2 ++ ((l.drop 6).take 2 ++
      ((l.drop 8).take 2 ++ (l.drop 10).take 2)))) = l := by
  have h4 : l.take 4 = l.take 2 ++ (l.drop 2).take 2 := by
    rw [show (4 : Nat) = 2 + 2 from rfl, List.take_add]
  have h6 : l.take 6 = l.take 4 ++ (l.drop 4).take 2 := by
    rw [show (6 : Nat) = 4 + 2 from rfl, List.take_add]
  have h8 : l.take 8 = l.take 6 ++ (l.drop 6).take 2 := by
    rw [show (8 : Nat) = 6 + 2 from rfl, List.take_add]
  have h10 : l.take 10 = l.take 8 ++ (l.drop 8).take 2 := by
    rw [show (10 : Nat) = 8 + 2 from rfl, List.take_add]
  have h12 : l.take 12 = l.take 10 ++ (l.drop 10).take 2 := by
    rw [show (12 : Nat) = 10 + 2 from rfl, List.take_add]
  have hall : l.take 12 = l := by
    rw [← hlen, List.take_length]
  calc l.take 2 ++ ((l.drop 2).take 2 ++ ((l.drop 4).take 2 ++ ((l.drop 6).take 2 ++
        ((l.drop 8).take 2 ++ (l.drop 10).take 2))))
      = l.take 12 := by
        rw [h12, h10, h8, h6, h4]
        simp [List.append_assoc]
    _ = l := hall

theorem pretty_roundtrip (m : String) (hv : isValidMACFormat m = true) :
    normalizeMACAddress (prettyPrintMACAddress m) = m := by
  obtain ⟨hlen, hhex⟩ := valid_elim m hv
  unfold prettyPrintMACAddress
  rw [hv]
  simp only [Bool.not_true, Bool.false_eq_true, if_false]
  unfold normalizeMACAddress stripMACDelimiters stringsToLower stringsToUpper goSlice
  obtain ⟨l⟩ := m
  simp only [List.drop_zero] at *
  apply congrArg String.mk
  show (((l.take 2 ++ ':' :: ((l.drop 2).take 2) ++ ':' :: ((l.drop 4).take 2) ++
    ':' :: ((l.drop 6).take 2) ++ ':' :: ((l.drop 8).take 2) ++
    ':' :: ((l.drop 10).take 2)).map Char.toUpper).map goToLowerChar).filter
      (fun c => !(c == ':' || c == '-' || c == '.')) = l
  have hseg : ∀ k, ∀ c ∈ (l.drop k).take 2, isLowerHexDigit c = true := by
    intro k c hc
    exact hhex c (List.mem_of_mem_drop (List.mem_of_mem_take hc))
  have htake : ∀ c ∈ l.take 2, isLowerHexDigit c = true := by
    intro c hc
    exact hhex c (List.mem_of_mem_take hc)
  rw [show l.take 2 ++ ':' :: ((l.drop 2).take 2) ++ ':' :: ((l.drop 4).take 2) ++
    ':' :: ((l.drop 6).take 2) ++ ':' :: ((l.drop 8).take 2) ++
    ':' :: ((l.drop 10).take 2)
    = l.take 2 ++ (':' :: ((l.drop 2).take 2 ++ (':' :: ((l.drop 4).take 2 ++
      (':' :: ((l.drop 6).take 2 ++ (':' :: ((l.drop 8).take 2 ++
      (':' :: (l.drop 10).take 2))))))))) by simp [List.append_assoc]]
  rw [clean_append, clean_colon_cons, clean_append, clean_colon_cons, clean_append,
    clean_colon_cons, clean_append, clean_colon_cons, clean_append, clean_colon_cons]
  rw [clean_seg _ htake, clean_seg _ (hseg 2), clean_seg _ (hseg 4), clean_seg _ (hseg 6),
    clean_seg _ (hseg 8), clean_seg _ (hseg 10)]
  exact seg_reassemble l hlen

theorem pretty_invalid (m : String) (hv : isValidMACFormat m = false) :
    prettyPrintMACAddress m = "" := by
  unfold prettyPrintMACAddress
  rw [hv]
  simp

end SWRA

namespace SWRA

/-! ## Claims -/

/-- C1: for every request on a wireless port whose normalized identity is
valid and whose device is found in the store, the decision is Accept iff the
requested network name (the last colon segment of the Called-Station-Id) is
a member of the union of the networks authorized by all of the device's
groups, compared by exact string equality; an empty union always rejects. -/
theorem C1_decision_iff_union_of_groups (db : MacDatabase) (u : String) (npt : Nat)
    (csi : String) (record : MacRecord)
    (hw : npt = NASPortType_Value_Wireless80211 ∨ npt = NASPortType_Value_WirelessOther)
    (hv : isValidMACFormat (normalizeMACAddress u) = true)
    (hok : GetMACRecord db (normalizeMACAddress u) = .ok record) :
    ((radiusHandler (GetMACRecord db) u npt csi).code = .accessAccept ↔
      lastColonSegment csi ∈ specAuthorizedUnion db record.macaddress.id) ∧
    (specAuthorizedUnion db record.macaddress.id = [] →
      (radiusHandler (GetMACRecord db) u npt csi).code = .accessReject) := by
  obtain ⟨row, hfind, hmac, hssid⟩ := GetMACRecord_ok_elim db _ record hok
  have hcode := radiusHandler_ok_code (GetMACRecord db) u npt csi record hw hv hok
  rw [hssid] at hcode
  rw [hmac]
  have hiff := record_ssid_mem_iff db row (lastColonSegment csi)
  have main : (radiusHandler (GetMACRecord db) u npt csi).code = .accessAccept ↔
      lastColonSegment csi ∈ specAuthorizedUnion db row.id := by
    rw [hcode]
    cases hX : (db.ssidTable.filter (fun ss =>
        db.group_ssid.any (fun gs => gs.2 == ss.id &&
          db.macaddress_devicegroup.any (fun md => md.1 == row.id && md.2 == gs.1)))).dedup.any
        (fun s => s.ssid == lastColonSegment csi) with
    | true =>
      rw [hX] at hiff
      simpa using hiff
    | false =>
      rw [hX] at hiff
      simpa using hiff
  refine ⟨main, ?_⟩
  intro hU
  cases hc : (radiusHandler (GetMACRecord db) u npt csi).code with
  | accessAccept =>
    have := main.mp hc
    rw [hU] at this
    simp at this
  | accessReject => rfl

/-- C1 witness: the spec's scenario — device `aabbccddeeff` in "Staff" which
authorizes "CorpNet"; request for `AABBCCDDEEFF` on an 802.11 port. -/
theorem C1_decision_iff_union_of_groups_witness :
    ((19 : Nat) = NASPortType_Value_Wireless80211 ∨
      (19 : Nat) = NASPortType_Value_WirelessOther) ∧
    isValidMACFormat (normalizeMACAddress "AABBCCDDEEFF") = true ∧
    GetMACRecord exampleDB (normalizeMACAddress "AABBCCDDEEFF") = .ok exampleRecord ∧
    (((radiusHandler (GetMACRecord exampleDB) "AABBCCDDEEFF" 19
        "00:11:22:33:44:55:CorpNet").code = .accessAccept ↔
      lastColonSegment "00:11:22:33:44:55:CorpNet"
        ∈ specAuthorizedUnion exampleDB exampleRecord.macaddress.id) ∧
     (specAuthorizedUnion exampleDB exampleRecord.macaddress.id = [] →
      (radiusHandler (GetMACRecord exampleDB) "AABBCCDDEEFF" 19
        "00:11:22:33:44:55:CorpNet").code = .accessReject)) :=
  ⟨Or.inl rfl, by decide, rfl,
    C1_decision_iff_union_of_groups exampleDB "AABBCCDDEEFF" 19
      "00:11:22:33:44:55:CorpNet" exampleRecord (Or.inl rfl) (by decide) rfl⟩

/-- C2: the decision is fail-closed — any lookup error (no record, or a
storage fault) yields Reject regardless of the requested network, and Accept
arises only from a successful lookup whose record authorizes the requested
SSID. -/
theorem C2_fail_closed (lookup : String → Except LookupErr MacRecord)
    (u : String) (npt : Nat) (csi : String) :
    (∀ e, lookup (normalizeMACAddress u) = .error e →
      (radiusHandler lookup u npt csi).code = .accessReject) ∧
    ((radiusHandler lookup u npt csi).code = .accessAccept →
      ∃ r, lookup (normalizeMACAddress u) = .ok r ∧
        r.ssid.any (fun s => s.ssid == lastColonSegment csi) = true) := by
  constructor
  · intro e he
    apply RadiusCode.eq_reject_of_ne_accept
    intro hacc
    obtain ⟨-, -, r, hr, -⟩ := (radiusHandler_code_accept_iff lookup u npt csi).mp hacc
    rw [he] at hr
    exact absurd hr (by simp)
  · intro hacc
    obtain ⟨-, -, r, hr, hany⟩ := (radiusHandler_code_accept_iff lookup u npt csi).mp hacc
    exact ⟨r, hr, hany⟩

/-- C2 witness: a store that faults on every lookup still rejects. -/
theorem C2_fail_closed_witness :
    ((fun _ : String => (Except.error LookupErr.storageFault : Except LookupErr MacRecord))
      (normalizeMACAddress "aabbccddeeff") = .error .storageFault) ∧
    (radiusHandler (fun _ => .error .storageFault) "aabbccddeeff" 19 "ap:CorpNet").code
      = .accessReject :=
  ⟨rfl, (C2_fail_closed (fun _ => .error .storageFault) "aabbccddeeff" 19 "ap:CorpNet").1
    .storageFault rfl⟩

/-- C3: the port-type gate dominates — a NAS-Port-Type that is neither
Wireless-802.11 (19) nor Wireless-Other (18) yields Reject for every lookup
function, identity, and requested network. -/
theorem C3_port_gate_dominates (lookup : String → Except LookupErr MacRecord)
    (u : String) (npt : Nat) (csi : String)
    (h19 : npt ≠ NASPortType_Value_Wireless80211)
    (h18 : npt ≠ NASPortType_Value_WirelessOther) :
    (radiusHandler lookup u npt csi).code = .accessReject := by
  rw [radiusHandler_portGate_eq lookup u npt csi h19 h18]

/-- C3 witness: port type 15 (Ethernet) rejects the very device/network pair
that an 802.11 port accepts. -/
theorem C3_port_gate_dominates_witness :
    ((15 : Nat) ≠ NASPortType_Value_Wireless80211) ∧
    ((15 : Nat) ≠ NASPortType_Value_WirelessOther) ∧
    (radiusHandler (GetMACRecord exampleDB) "aa:bb:cc:dd:ee:ff" 15 "ap:CorpNet").code
      = .accessReject ∧
    (radiusHandler (GetMACRecord exampleDB) "aa:bb:cc:dd:ee:ff" 19 "ap:CorpNet").code
      = .accessAccept :=
  ⟨by decide, by decide,
    C3_port_gate_dominates (GetMACRecord exampleDB) "aa:bb:cc:dd:ee:ff" 15 "ap:CorpNet"
      (by decide) (by decide), by decide⟩

/-- C4: on a wireless port, an identity whose normalization is not twelve
lowercase hex characters is rejected and the permission store is never
queried. -/
theorem C4_malformed_no_lookup (lookup : String → Except LookupErr MacRecord)
    (u : String) (npt : Nat) (csi : String)
    (hw : npt = NASPortType_Value_Wireless80211 ∨ npt = NASPortType_Value_WirelessOther)
    (hv : isValidMACFormat (normalizeMACAddress u) = false) :
    (radiusHandler lookup u npt csi).code = .accessReject ∧
    (radiusHandler lookup u npt csi).storeLookups = [] := by
  rw [radiusHandler_invalid_eq lookup u npt csi hw hv]
  exact ⟨rfl, rfl⟩

/-- C4 witness: the spec's malformed identity `not-a-mac` on a wireless
port. -/
theorem C4_malformed_no_lookup_witness :
    ((19 : Nat) = NASPortType_Value_Wireless80211 ∨
      (19 : Nat) = NASPortType_Value_WirelessOther) ∧
    isValidMACFormat (normalizeMACAddress "not-a-mac") = false ∧
    ((radiusHandler (GetMACRecord exampleDB) "not-a-mac" 19 "ap:CorpNet").code
        = .accessReject ∧
     (radiusHandler (GetMACRecord exampleDB) "not-a-mac" 19 "ap:CorpNet").storeLookups = []) :=
  ⟨Or.inl rfl, by decide,
    C4_malformed_no_lookup (GetMACRecord exampleDB) "not-a-mac" 19 "ap:CorpNet"
      (Or.inl rfl) (by decide)⟩

end SWRA

namespace SWRA

/-- C5 counterexample: an unknown identity (lookup returns the not-found
error) and a storage fault are NOT handled as distinct outcomes by the
handler — at the same concrete request they produce the identical decision,
identical store interaction, and log lines from the identical (level-less)
call sites, refuting the claimed info-level/error-level distinction. -/
theorem C5_counterexample :
    (radiusHandler (fun _ => .error .errNoRows) "aabbccddeeff" 19 "ap:CorpNet").code
      = (radiusHandler (fun _ => .error .storageFault) "aabbccddeeff" 19 "ap:CorpNet").code ∧
    (radiusHandler (fun _ => .error .errNoRows) "aabbccddeeff" 19 "ap:CorpNet").storeLookups
      = (radiusHandler (fun _ => .error .storageFault) "aabbccddeeff" 19
          "ap:CorpNet").storeLookups ∧
    (radiusHandler (fun _ => .error .errNoRows) "aabbccddeeff" 19 "ap:CorpNet").logs.map
        LogEvent.kind
      = (radiusHandler (fun _ => .error .storageFault) "aabbccddeeff" 19 "ap:CorpNet").logs.map
          LogEvent.kind := by
  exact ⟨rfl, rfl, rfl⟩

/-- C5 (amended): a not-found lookup is distinguishable from a storage fault
in the value `GetMACRecord` returns — not-found is exactly the distinguished
no-rows error, and a fault-free store never reports a storage fault — but
`radiusHandler` handles every lookup error identically: same Reject
decision, same store interaction, and log lines from the same level-less
call sites, whatever the error value. -/
theorem C5_notFound_distinguishable_handling_identical :
    (∀ db m, GetMACRecord db m = .error .errNoRows ↔
      ∀ row ∈ db.macaddressTable, row.macaddress ≠ m) ∧
    (∀ db m, GetMACRecord db m ≠ .error .storageFault) ∧
    (∀ (lookupA lookupB : String → Except LookupErr MacRecord) u npt csi eA eB,
      lookupA (normalizeMACAddress u) = .error eA →
      lookupB (normalizeMACAddress u) = .error eB →
      (radiusHandler lookupA u npt csi).code = (radiusHandler lookupB u npt csi).code ∧
      (radiusHandler lookupA u npt csi).storeLookups
        = (radiusHandler lookupB u npt csi).storeLookups ∧
      (radiusHandler lookupA u npt csi).logs.map LogEvent.kind
        = (radiusHandler lookupB u npt csi).logs.map LogEvent.kind) :=
  ⟨GetMACRecord_notFound_iff, GetMACRecord_no_fault, handler_error_paths_identical⟩

/-- C5 witness: instantiating the identical-handling part at a not-found
lookup and a faulting lookup on a concrete request. -/
theorem C5_notFound_distinguishable_handling_identical_witness :
    ((fun _ : String => (Except.error LookupErr.errNoRows : Except LookupErr MacRecord))
      (normalizeMACAddress "aabbccddeeff") = .error .errNoRows) ∧
    ((fun _ : String => (Except.error LookupErr.storageFault : Except LookupErr MacRecord))
      (normalizeMACAddress "aabbccddeeff") = .error .storageFault) ∧
    (radiusHandler (fun _ => .error .errNoRows) "aabbccddeeff" 19 "a:b").code
      = (radiusHandler (fun _ => .error .storageFault) "aabbccddeeff" 19 "a:b").code :=
  ⟨rfl, rfl,
    (C5_notFound_distinguishable_handling_identical.2.2
      (fun _ => .error .errNoRows) (fun _ => .error .storageFault)
      "aabbccddeeff" 19 "a:b" .errNoRows .storageFault rfl rfl).1⟩

/-- C6: the requested network name is the last colon-delimited segment of
the Called-Station-Id: the handler's behaviour depends on the attribute only
through that segment, the extraction is total, a colon-free value is used
whole, and an empty value or a value ending in a colon yields the empty
string. -/
theorem C6_requested_network_extraction :
    (∀ (lookup : String → Except LookupErr MacRecord) (u : String) (npt : Nat)
        (csi csi' : String), lastColonSegment csi = lastColonSegment csi' →
      radiusHandler lookup u npt csi = radiusHandler lookup u npt csi') ∧
    (∀ s : String, (∀ c ∈ s.data, c ≠ ':') → lastColonSegment s = s) ∧
    (lastColonSegment "" = "") ∧
    (∀ t : String, lastColonSegment (t.push ':') = "") :=
  ⟨radiusHandler_csi_congr, lastColonSegment_no_colon, rfl, lastColonSegment_push_colon⟩

/-- C6 witness: two Called-Station-Id values sharing the last segment give
the same handler run; a colon-free value is its own segment; a trailing
colon gives the empty segment. -/
theorem C6_requested_network_extraction_witness :
    (lastColonSegment "00:11:22:33:44:55:CorpNet" = lastColonSegment "ap:CorpNet") ∧
    (radiusHandler (GetMACRecord exampleDB) "aabbccddeeff" 19 "00:11:22:33:44:55:CorpNet"
      = radiusHandler (GetMACRecord exampleDB) "aabbccddeeff" 19 "ap:CorpNet") ∧
    (∀ c ∈ ("nocolon" : String).data, c ≠ ':') ∧
    (lastColonSegment "nocolon" = "nocolon") ∧
    (lastColonSegment (("ends" : String).push ':') = "") :=
  ⟨by decide,
    C6_requested_network_extraction.1 (GetMACRecord exampleDB) "aabbccddeeff" 19
      "00:11:22:33:44:55:CorpNet" "ap:CorpNet" (by decide),
    by decide,
    C6_requested_network_extraction.2.1 "nocolon" (by decide),
    C6_requested_network_extraction.2.2.2 "ends"⟩

/-- C7: validation returns true iff the string is exactly twelve characters,
each a decimal digit or a lowercase `a`–`f`; everything else — wrong
length, uppercase, delimiters, other characters — returns false. -/
theorem C7_validation_iff (m : String) :
    isValidMACFormat m = true ↔
      (m.data.length = 12 ∧ ∀ c ∈ m.data,
        (('0' ≤ c ∧ c ≤ '9') ∨ ('a' ≤ c ∧ c ≤ 'f'))) := by
  unfold isValidMACFormat isLowerHexDigit
  simp [List.all_eq_true, Bool.and_eq_true, Bool.or_eq_true, decide_eq_true_eq, beq_iff_eq]

/-- C7 witness: the spec's examples — `aabbccddeeff` validates; its
characterization holds concretely. -/
theorem C7_validation_iff_witness :
    isValidMACFormat "aabbccddeeff" = true ∧
    (("aabbccddeeff" : String).data.length = 12 ∧
      ∀ c ∈ ("aabbccddeeff" : String).data,
        (('0' ≤ c ∧ c ≤ '9') ∨ ('a' ≤ c ∧ c ≤ 'f'))) :=
  ⟨by decide, (C7_validation_iff "aabbccddeeff").mp (by decide)⟩

/-- C8: normalization is idempotent — lower-casing and delimiter removal
applied twice equals applying it once, for every string. -/
theorem C8_normalize_idempotent (x : String) :
    normalizeMACAddress (normalizeMACAddress x) = normalizeMACAddress x := by
  unfold normalizeMACAddress stripMACDelimiters stringsToLower
  exact congrArg String.mk (filter_map_toLower_idem _ x.data)

/-- C9: the decision is deterministic and replay-idempotent — two requests
with identical identity, port-type, and Called-Station-Id attributes,
evaluated against the same store contents, produce the same handler run
(in particular the same Accept/Reject code). -/
theorem C9_deterministic (db : MacDatabase) (uA uB : String) (nptA nptB : Nat)
    (csiA csiB : String) (hu : uA = uB) (hp : nptA = nptB) (hc : csiA = csiB) :
    radiusHandler (GetMACRecord db) uA nptA csiA
      = radiusHandler (GetMACRecord db) uB nptB csiB := by
  subst hu
  subst hp
  subst hc
  rfl

/-- C9 witness: replaying the spec's accepting request. -/
theorem C9_deterministic_witness :
    ("AABBCCDDEEFF" : String) = "AABBCCDDEEFF" ∧ (19 : Nat) = 19 ∧
    ("ap:CorpNet" : String) = "ap:CorpNet" ∧
    radiusHandler (GetMACRecord exampleDB) "AABBCCDDEEFF" 19 "ap:CorpNet"
      = radiusHandler (GetMACRecord exampleDB) "AABBCCDDEEFF" 19 "ap:CorpNet" :=
  ⟨rfl, rfl, rfl, C9_deterministic exampleDB "AABBCCDDEEFF" "AABBCCDDEEFF" 19 19
    "ap:CorpNet" "ap:CorpNet" rfl rfl rfl⟩

/-- C10: pretty-printing round-trips with normalization — for every string
passing validation, normalizing the pretty-printed form gives the string
back; for every string failing validation, pretty-printing returns the
empty string (the guard fires before any slicing). -/
theorem C10_pretty_roundtrip (m : String) :
    (isValidMACFormat m = true → normalizeMACAddress (prettyPrintMACAddress m) = m) ∧
    (isValidMACFormat m = false → prettyPrintMACAddress m = "") :=
  ⟨pretty_roundtrip m, pretty_invalid m⟩

/-- C10 witness: a valid address round-trips; a malformed one
pretty-prints to the empty string. -/
theorem C10_pretty_roundtrip_witness :
    isValidMACFormat "0a1b2c3d4e5f" = true ∧
    normalizeMACAddress (prettyPrintMACAddress "0a1b2c3d4e5f") = "0a1b2c3d4e5f" ∧
    isValidMACFormat "not-a-mac" = false ∧
    prettyPrintMACAddress "not-a-mac" = "" :=
  ⟨by decide, (C10_pretty_roundtrip "0a1b2c3d4e5f").1 (by decide), by decide,
    (C10_pretty_roundtrip "not-a-mac").2 (by decide)⟩

end SWRA
